import Mathlib

/-!
Verification development for the squirrel-stash-dash endless runner.

This file gives a shallow embedding of the game's simulation core
(`player.py`, `camera.py`, `generator.py`, `yarn.py`, `obstacles.py`,
and the milestone logic of `game.py`) and proves or refutes the frozen
claims about it.  Conventions of the embedding:

* Python floats become `ℚ` (all the arithmetic the claims touch is exact
  on the values the game produces); Python ints become `Nat`/`Int`.
* `random.random() < p` outcomes, `random.randint` and `random.choice`
  draws are modelled as explicit oracle functions (an `Rng` record),
  universally quantified in the theorems, so every statement holds for
  every random sequence.  A chance that Python computes as `0` (distance
  gates) is modelled as the corresponding branch being forced off.
* Trigonometry in the scatter-trajectory code is kept symbolic: a
  trajectory stores the rational coefficient `c` of its angle `c·π` and
  its speed; the induced real velocity vector is interpreted with
  `Real.cos`/`Real.sin` in the properties about it.
* Screen coordinates: the y axis grows downward (pygame convention), so
  a positive vertical velocity moves toward the ground.
-/

namespace SquirrelStash

/-- Player state machine states, mirroring the string constants
`STATE_RUNNING` / `STATE_JUMPING` / `STATE_HIT` of `player.py`. -/
inductive PState where
  | running
  | jumping
  | hit
deriving DecidableEq, Repr

/-- The mutable fields of the `Squirrel` class of `player.py` that the
simulation logic reads or writes (rendering/animation fields omitted). -/
structure Squirrel where
  x : ℚ
  y : ℚ
  velocityY : ℚ
  speedMultiplier : ℚ
  isGrounded : Bool
  groundY : ℚ
  fallingInGap : Bool
  state : PState
  yarnCount : Nat
  hitTimer : ℚ
  lives : Int
  maxLives : Int
deriving DecidableEq, Repr

/-- `base_speed = 200`. -/
def baseSpeed : ℚ := 200

/-- `speed_increase_rate = 0.05`. -/
def speedIncreaseRate : ℚ := 1/20

/-- `jump_strength = -550`. -/
def jumpStrength : ℚ := -550

/-- `gravity = 1200`. -/
def gravityAccel : ℚ := 1200

/-- `gap_gravity = 4000`. -/
def gapGravityAccel : ℚ := 4000

/-- `hit_duration = 1.0`. -/
def hitDuration : ℚ := 1

/-- `hit_speed_reduction = 0.5`. -/
def hitSpeedReduction : ℚ := 1/2

/-- `Squirrel.__init__(x, y)`: grounded, running, 3 of 3 lives, empty stash. -/
def mkSquirrel (x y : ℚ) : Squirrel :=
  { x := x, y := y, velocityY := 0, speedMultiplier := 1, isGrounded := true,
    groundY := y, fallingInGap := false, state := PState.running, yarnCount := 0,
    hitTimer := 0, lives := 3, maxLives := 3 }

/-- `Squirrel.jump`: only acts when grounded and not in the hit state. -/
def jump (s : Squirrel) : Squirrel :=
  if s.isGrounded = true ∧ s.state ≠ PState.hit then
    { s with velocityY := jumpStrength, isGrounded := false, state := PState.jumping }
  else s

/-- A scatter trajectory as produced by `Squirrel.hit_obstacle`: origin at the
player's center, angle kept symbolically as `angCoeff · π` radians
(`angle = angle_start + (i / max(sc-1,1)) * angle_range` with
`angle_start = -0.75π`, `angle_range = 1.5π`), and speed `200 + (i % 3) * 50`. -/
structure Traj where
  x : ℚ
  y : ℚ
  angCoeff : ℚ
  speed : ℚ
deriving DecidableEq, Repr

/-- The scatter loop of `hit_obstacle` (lines 260-273 of `player.py`). -/
def scatterTrajs (cx cy : ℚ) (sc : Nat) : List Traj :=
  (List.range sc).map fun (i : ℕ) =>
    { x := cx, y := cy,
      angCoeff := -3/4 + ((i : ℚ) / ((max (sc - 1) 1 : ℕ) : ℚ)) * (3/2),
      speed := 200 + ((i % 3 : ℕ) : ℚ) * 50 }

/-- Real velocity vector of a trajectory: `(cos θ · speed, sin θ · speed − 150)`
with `θ = angCoeff · π`; the `−150` is the code's upward bias (screen
coordinates: negative y velocity moves up). The trajectory points strictly
downward when the vector lies in the open 45-degree cone around straight
down, i.e. downward speed strictly dominates the horizontal speed. -/
def trajPointsDown (t : Traj) : Prop :=
  |Real.cos ((t.angCoeff : ℝ) * Real.pi) * (t.speed : ℝ)| <
    Real.sin ((t.angCoeff : ℝ) * Real.pi) * (t.speed : ℝ) - 150

/-- `Squirrel.hit_obstacle`: returns `(yarn_lost, yarn_positions, is_dead)`
together with the updated player. A no-op returning `(0, [], False)` when
already in the hit state. -/
def hitObstacle (s : Squirrel) : (Nat × List Traj × Bool) × Squirrel :=
  if s.state = PState.hit then ((0, [], false), s)
  else
    let lives' := s.lives - 1
    let isDead := decide (lives' ≤ 0)
    let yarnToLose := if s.yarnCount / 2 = 0 ∧ 0 < s.yarnCount then 1 else s.yarnCount / 2
    let scatterCount := min yarnToLose 10
    let trajs := scatterTrajs (s.x + 55) (s.y + 55) scatterCount
    ((yarnToLose, trajs, isDead),
     { s with state := PState.hit, hitTimer := hitDuration, lives := lives',
              velocityY := -200, isGrounded := false,
              yarnCount := s.yarnCount - yarnToLose })

/-- `Squirrel.add_life`: increments `lives` only below `max_lives`; returns
whether a life was added. -/
def addLife (s : Squirrel) : Bool × Squirrel :=
  if s.lives < s.maxLives then (true, { s with lives := s.lives + 1 }) else (false, s)

/-- `Squirrel.update(dt)` (animation bookkeeping omitted): speed ramp frozen
while hit and capped at 3, hit-timer countdown with stun expiry, horizontal
and vertical integration with the two gravity regimes, ground snapping. -/
def updateSquirrel (s : Squirrel) (dt : ℚ) : Squirrel :=
  let sm := if s.state ≠ PState.hit then min (s.speedMultiplier + speedIncreaseRate * dt) 3
            else s.speedMultiplier
  let timer' := if 0 < s.hitTimer then s.hitTimer - dt else s.hitTimer
  let state1 := if 0 < s.hitTimer ∧ timer' ≤ 0 then
                  (if s.isGrounded = true then PState.running else PState.jumping)
                else s.state
  let speedFactor := if state1 = PState.hit then hitSpeedReduction else 1
  let x' := s.x + baseSpeed * sm * speedFactor * dt
  let grav := if s.fallingInGap = true then gapGravityAccel else gravityAccel
  let vy := s.velocityY + grav * dt
  let y' := s.y + vy * dt
  if s.groundY ≤ y' then
    { s with x := x', y := s.groundY, velocityY := 0, isGrounded := true,
             speedMultiplier := sm, hitTimer := timer',
             state := if state1 = PState.jumping then
                        (if timer' ≤ 0 then PState.running else PState.hit)
                      else state1 }
  else
    { s with x := x', y := y', velocityY := vy, isGrounded := false,
             speedMultiplier := sm, hitTimer := timer', state := state1 }

/-- One externally driven player operation: a hazard hit, a life award, or a
physics tick (the tick is what lets the hit stun expire between hits). -/
inductive Op where
  | hitOp
  | addLifeOp
  | updOp (dt : ℚ)
deriving DecidableEq

/-- Apply one operation to the player. -/
def stepOp (s : Squirrel) : Op → Squirrel
  | Op.hitOp => (hitObstacle s).2
  | Op.addLifeOp => (addLife s).2
  | Op.updOp dt => updateSquirrel s dt

/-- Apply a sequence of operations to the player. -/
def runOps (s : Squirrel) : List Op → Squirrel
  | [] => s
  | op :: rest => runOps (stepOp s op) rest

/-- A call sequence is guarded when every hazard hit happens either inside an
existing stun window or while the player still has a life left — exactly the
situations the orchestrator allows, since it ends the run as soon as
`hit_obstacle` reports death. -/
def guardedOps (s : Squirrel) : List Op → Prop
  | [] => True
  | op :: rest =>
      (op = Op.hitOp → s.state = PState.hit ∨ 0 < s.lives) ∧ guardedOps (stepOp s op) rest

/-- The `Camera` class of `camera.py`: position, fixed y, and the last
computed target. The screen is 800 wide, `lerp_speed = 5.0`,
`base_offset = 800·0.3 = 240`, `max_offset = 800·0.5 = 400`. -/
structure Camera where
  x : ℚ
  y : ℚ
  targetX : ℚ
deriving DecidableEq, Repr

/-- `lerp_speed = 5.0`. -/
def lerpSpeed : ℚ := 5

/-- `base_offset = screen_width * 0.3` with `screen_width = 800`. -/
def camBaseOffset : ℚ := 240

/-- `max_offset = screen_width * 0.5` with `screen_width = 800`. -/
def camMaxOffset : ℚ := 400

/-- `Camera.__init__`: starts at the origin. -/
def mkCamera : Camera := { x := 0, y := 0, targetX := 0 }

/-- Target position computed inside `Camera.update`:
`player_x - (base_offset + (max_offset - base_offset) * speed_pct/100)`. -/
def cameraTarget (playerX speedPct : ℚ) : ℚ :=
  playerX - (camBaseOffset + (camMaxOffset - camBaseOffset) * (speedPct / 100))

/-- `Camera.update(dt, player_x, player_speed_percentage)`: exponential
smoothing toward the target followed by the clamp `x = max(0, x)`. -/
def cameraUpdate (c : Camera) (dt playerX speedPct : ℚ) : Camera :=
  let tx := cameraTarget playerX speedPct
  { x := max 0 (c.x + (tx - c.x) * lerpSpeed * dt), y := 0, targetX := tx }

/-- Iterated camera updates with a constant player position and speed. -/
def cameraIter (c : Camera) (dt playerX speedPct : ℚ) : Nat → Camera
  | 0 => c
  | n + 1 => cameraUpdate (cameraIter c dt playerX speedPct n) dt playerX speedPct

/-- Colors of the `basic` tier of `YARN_TIERS` (`yarn.py`), 1 point,
`min_stash = 0`. -/
def basicColors : List String := ["red", "green", "blue"]

/-- Colors of the `mid` tier, 2 points, `min_stash = 10`. -/
def midColors : List String := ["cyan", "magenta", "yellow", "black"]

/-- Colors of the `late` tier, 3 points, `min_stash = 25`. -/
def lateColors : List String := ["orange", "purple", "lime", "teal", "pink", "brown"]

/-- `min_stash` of the `mid` tier. -/
def midMinStash : Int := 10

/-- `min_stash` of the `late` tier. -/
def lateMinStash : Int := 25

/-- The tier scan of `get_available_colors` before its fallback: collect the
colors of every non-rare tier whose `min_stash` the stash meets, in the
dict's insertion order basic, mid, late. -/
def unlockedColors (stash : Int) : List String :=
  (if 0 ≤ stash then basicColors else []) ++
  (if midMinStash ≤ stash then midColors else []) ++
  (if lateMinStash ≤ stash then lateColors else [])

/-- `get_available_colors(stash)`: the unlocked colors, falling back to the
basic colors when the scan produced nothing. -/
def getAvailableColors (stash : Int) : List String :=
  if unlockedColors stash = [] then basicColors else unlockedColors stash

/-- Point lookup of `spawn_yarn`: first tier (in order basic, mid, late,
rare) containing the color, defaulting to 1. -/
def pointsForColor (c : String) : Nat :=
  if c ∈ basicColors then 1
  else if c ∈ midColors then 2
  else if c ∈ lateColors then 3
  else if c = "rainbow" then 5
  else 1

/-- A `YarnSkein` record: position, color and points (animation and scatter
bookkeeping omitted). -/
structure YarnR where
  x : ℚ
  y : ℚ
  colorName : String
  points : Nat
deriving DecidableEq, Repr

/-- `spawn_yarn(x, y, stash)`. `rareRoll` is the outcome of
`random.random() < 0.05`; `choiceIx` drives `random.choice` on the available
colors, modelled as indexing modulo the list length (`random.choice` on an
empty list would raise, modelled as `none`). -/
def spawnYarn (x y : ℚ) (stash : Int) (rareRoll : Bool) (choiceIx : Nat) : Option YarnR :=
  if rareRoll = true then some { x := x, y := y, colorName := "rainbow", points := 5 }
  else
    match (getAvailableColors stash).get? (choiceIx % (getAvailableColors stash).length) with
    | some c => some { x := x, y := y, colorName := c, points := pointsForColor c }
    | none => none

/-- The `Gap` record of `obstacles.py`: `(start_x, width, ground_y)` with
`end_x = start_x + width` stored at construction. -/
structure GapR where
  startX : ℚ
  width : ℚ
  groundY : ℚ
deriving DecidableEq, Repr

/-- `end_x` as set by `Gap.__init__`. -/
def gapEndX (g : GapR) : ℚ := g.startX + g.width

/-- `Gap.contains_x(x)`: `start_x <= x <= end_x`. -/
def gapContainsX (g : GapR) (x : ℚ) : Bool :=
  decide (g.startX ≤ x) && decide (x ≤ gapEndX g)

/-- The `Platform` record: `(x, y, width)`. -/
structure PlatformR where
  x : ℚ
  y : ℚ
  width : ℚ
deriving DecidableEq, Repr

/-- The `Bush` hazard record: position only (hitbox is derived). -/
structure BushR where
  x : ℚ
  y : ℚ
deriving DecidableEq, Repr

/-- A `Ground` tile: position plus the gap-edge flags. -/
structure GroundR where
  x : ℚ
  y : ℚ
  isLeftEdge : Bool
  isRightEdge : Bool
deriving DecidableEq, Repr

/-- The `LevelGenerator` state that the claims touch: the live gap list, the
last-platform tracking, and the `yarn_reset_to_basic` flag. -/
structure LevelGeneratorS where
  gaps : List GapR
  lastPlatformX : ℚ
  lastPlatformY : ℚ
  yarnResetToBasic : Bool
deriving DecidableEq, Repr

/-- `LevelGenerator.reset_yarn_tiers`: sets the flag and nothing else. -/
def resetYarnTiers (g : LevelGeneratorS) : LevelGeneratorS :=
  { g with yarnResetToBasic := true }

/-- `LevelGenerator.restore_yarn_progression`: clears the flag. -/
def restoreYarnProgression (g : LevelGeneratorS) : LevelGeneratorS :=
  { g with yarnResetToBasic := false }

/-- `LevelGenerator.get_ground_at(x)`: `None` when any stored gap contains x,
else the ground height 584. -/
def getGroundAt (g : LevelGeneratorS) (x : ℚ) : Option ℚ :=
  if g.gaps.any (fun gp => gapContainsX gp x) then none else some 584

/-- Oracle record standing for the stream of random draws consumed by
`_generate_chunk`, one function per call site, indexed by the loop position
at which the draw happens. `gapRoll`/`bushRoll`/`platRoll`/`platYarnRoll`/
`airRoll` are outcomes of the `random.random() < chance` comparisons (for a
chance that is positive; a zero chance forces the branch off and is modelled
by the distance gates in the loops). `gapSize` drives `randint(2,3)` as
`2 + gapSize i % 2`; `bushOff` drives `randint(10,30)` as `10 + bushOff idx % 21`;
`airOff` drives `randint(10,50)` as `10 + airOff idx % 41`; the `Pick` and
`Height` fields index `random.choice` lists modulo their length; the
`Rare`/`Choice` pairs feed `spawn_yarn`. -/
structure Rng where
  gapRoll : Nat → Bool
  gapSize : Nat → Nat
  rescueRare : Nat → Bool
  rescueChoice : Nat → Nat
  bushRoll : Nat → Bool
  bushOff : Nat → Nat
  platRoll : Nat → Bool
  platHeightPick : Nat → Nat
  platWidthPick : Nat → Nat
  platYarnRoll : Nat → Bool
  platRare : Nat → Bool
  platChoice : Nat → Nat
  airRoll : Nat → Bool
  airOff : Nat → Nat
  airHeightPick : Nat → Nat
  airRare : Nat → Bool
  airChoice : Nat → Nat

/-- Tile columns of one chunk: `x = start_x + 64·k` while `x < start_x + 400`,
i.e. exactly the seven positions `k = 0..6`. -/
def tilePositions (startX : ℚ) : List ℚ :=
  (List.range 7).map fun (k : ℕ) => startX + 64 * (k : ℚ)

/-- `PLATFORM_MIN_SPACING = 250`. -/
def platformMinSpacing : ℚ := 250

/-- Reachable platform heights: `[PLATFORM_LOW_Y, PLATFORM_MID_Y]`, with
`PLATFORM_HIGH_Y` appended once `distance > 200`. -/
def platformHeights (distance : ℚ) : List ℚ :=
  if 200 < distance then [514, 474, 434] else [514, 474]

/-- `random.choice([96, 128, 160])` candidates for a column platform width. -/
def platformWidthChoices : List ℚ := [96, 128, 160]

/-- Boolean membership in a list of rationals. -/
def memQ (x : ℚ) (l : List ℚ) : Bool := decide (x ∈ l)

/-- Output of the gap-placement scan (the first loop of `_generate_chunk`):
each created gap paired with the rescue platform emitted with it, the tile
positions consumed by gaps, the rescue-platform pickups, and the
`last_platform_x/y` values after the scan. -/
structure GapLoopOut where
  pairs : List (GapR × PlatformR)
  gapPositions : List ℚ
  yarns : List YarnR
  lastPlatformX : ℚ
  lastPlatformY : ℚ
deriving DecidableEq, Repr

/-- The gap-placement scan (`_generate_chunk`, lines 99-137). The branch is
taken when the distance gate is open (`distance > 100`), the chance roll
succeeds, and `i + 1 < len(tile_positions)`; it then consumes
`tiles_added = min(randint(2,3), len - i)` columns as one gap, emits the gap,
its rescue platform (10 left of the gap, width `gap_width + 40`, at the low
height 514) and a pickup over the gap center, updates the platform tracking,
and resumes past the consumed columns. The scan advances `i` by at least one
per iteration, so fuel `tiles.length` (as passed by `generateChunk`) makes
the recursion exhaust exactly when the `while i < len` condition fails. -/
def gapLoop (rng : Rng) (distance : ℚ) (stash : Int) (tiles : List ℚ) :
    Nat → Nat → ℚ → ℚ → GapLoopOut
  | 0, _, lpx, lpy => { pairs := [], gapPositions := [], yarns := [],
                        lastPlatformX := lpx, lastPlatformY := lpy }
  | fuel + 1, i, lpx, lpy =>
    if h : i < tiles.length then
      if 100 < distance ∧ rng.gapRoll i = true ∧ i + 1 < tiles.length then
        let numTiles := 2 + rng.gapSize i % 2
        let tilesAdded := min numTiles (tiles.length - i)
        let gapStartX := tiles.get ⟨i, h⟩
        let gapWidth : ℚ := (tilesAdded : ℚ) * 64
        let yarnHere := spawnYarn (gapStartX + (tilesAdded : ℚ) * 32) (514 - 45) stash
          (rng.rescueRare i) (rng.rescueChoice i)
        let rest := gapLoop rng distance stash tiles fuel (i + tilesAdded) gapStartX 514
        { pairs := ({ startX := gapStartX, width := gapWidth, groundY := 584 },
                    { x := gapStartX - 10, y := 514, width := gapWidth + 40 }) :: rest.pairs,
          gapPositions := (tiles.drop i).take tilesAdded ++ rest.gapPositions,
          yarns := yarnHere.toList ++ rest.yarns,
          lastPlatformX := rest.lastPlatformX, lastPlatformY := rest.lastPlatformY }
      else gapLoop rng distance stash tiles fuel (i + 1) lpx lpy
    else { pairs := [], gapPositions := [], yarns := [],
           lastPlatformX := lpx, lastPlatformY := lpy }

/-- Per-column spawn summary for the second loop: which of the three
independent spawns (hazard bush, platform, airborne pickup) happened in a
non-gap column. -/
structure ColSpawn where
  tileX : ℚ
  hasBush : Bool
  hasPlatform : Bool
  hasAirYarn : Bool
deriving DecidableEq, Repr

/-- Output of the tile-placement loop (the second loop of `_generate_chunk`). -/
structure ColLoopOut where
  grounds : List GroundR
  bushes : List BushR
  platforms : List PlatformR
  yarns : List YarnR
  spawns : List ColSpawn
  lastPlatformX : ℚ
  lastPlatformY : ℚ
deriving DecidableEq, Repr

/-- The tile-placement loop (`_generate_chunk`, lines 139-196): gap columns
are skipped; every other column gets a ground tile with edge flags, then a
bush roll (gated by `distance > 50`), then the platform branch (roll gated by
`distance > 80`, plus the spacing condition `tile_x - last_platform_x > 250`)
whose `else` arm rolls the airborne pickup. The index advances by exactly one
per iteration, so fuel `tiles.length` reproduces the `for` loop. -/
def colLoop (rng : Rng) (distance : ℚ) (stash : Int) (tiles : List ℚ) (gapPos : List ℚ) :
    Nat → Nat → ℚ → ℚ → ColLoopOut
  | 0, _, lpx, lpy => { grounds := [], bushes := [], platforms := [], yarns := [],
                        spawns := [], lastPlatformX := lpx, lastPlatformY := lpy }
  | fuel + 1, idx, lpx, lpy =>
    if h : idx < tiles.length then
      let tileX := tiles.get ⟨idx, h⟩
      if memQ tileX gapPos = true then
        colLoop rng distance stash tiles gapPos fuel (idx + 1) lpx lpy
      else
        let isLeftEdge := if idx = 0 then false else
          (match tiles.get? (idx - 1) with
           | some p => memQ p gapPos
           | none => false)
        let isRightEdge :=
          (match tiles.get? (idx + 1) with
           | some p => memQ p gapPos
           | none => false)
        let ground : GroundR := { x := tileX, y := 584,
                                  isLeftEdge := isLeftEdge, isRightEdge := isRightEdge }
        let bushSpawn : Bool := if 50 < distance then rng.bushRoll idx else false
        let newBushes : List BushR :=
          if bushSpawn = true then
            [{ x := tileX + ((10 + rng.bushOff idx % 21 : ℕ) : ℚ), y := 548 }] else []
        let platGate : Bool := if 80 < distance then rng.platRoll idx else false
        if platGate = true ∧ platformMinSpacing < tileX - lpx then
          let heights := platformHeights distance
          let py := heights.getD (rng.platHeightPick idx % heights.length) 514
          let pw := platformWidthChoices.getD (rng.platWidthPick idx % 3) 128
          let platYarns : List YarnR :=
            if rng.platYarnRoll idx = true then
              (spawnYarn (tileX + pw / 2 - 16) (py - 45) stash
                (rng.platRare idx) (rng.platChoice idx)).toList
            else []
          let rest := colLoop rng distance stash tiles gapPos fuel (idx + 1) tileX py
          { grounds := ground :: rest.grounds,
            bushes := newBushes ++ rest.bushes,
            platforms := { x := tileX, y := py, width := pw } :: rest.platforms,
            yarns := platYarns ++ rest.yarns,
            spawns := { tileX := tileX, hasBush := bushSpawn,
                        hasPlatform := true, hasAirYarn := false } :: rest.spawns,
            lastPlatformX := rest.lastPlatformX, lastPlatformY := rest.lastPlatformY }
        else
          let airSpawn : Bool := rng.airRoll idx
          let airYarns : List YarnR :=
            if airSpawn = true then
              (spawnYarn (tileX + ((10 + rng.airOff idx % 41 : ℕ) : ℚ))
                (584 - [(60 : ℚ), 90, 120].getD (rng.airHeightPick idx % 3) 60) stash
                (rng.airRare idx) (rng.airChoice idx)).toList
            else []
          let rest := colLoop rng distance stash tiles gapPos fuel (idx + 1) lpx lpy
          { grounds := ground :: rest.grounds,
            bushes := newBushes ++ rest.bushes,
            platforms := rest.platforms,
            yarns := airYarns ++ rest.yarns,
            spawns := { tileX := tileX, hasBush := bushSpawn,
                        hasPlatform := false, hasAirYarn := airSpawn } :: rest.spawns,
            lastPlatformX := rest.lastPlatformX, lastPlatformY := rest.lastPlatformY }
    else { grounds := [], bushes := [], platforms := [], yarns := [],
           spawns := [], lastPlatformX := lpx, lastPlatformY := lpy }

/-- Everything `_generate_chunk` appends to the generator's lists, plus the
platform tracking it leaves behind. -/
structure ChunkOut where
  gaps : List GapR
  platforms : List PlatformR
  bushes : List BushR
  grounds : List GroundR
  yarns : List YarnR
  spawns : List ColSpawn
  lastPlatformX : ℚ
  lastPlatformY : ℚ
deriving DecidableEq, Repr

/-- `LevelGenerator._generate_chunk(start_x, distance)`: the gap scan followed
by the tile-placement loop, with `last_platform_x/y` threaded from the first
loop into the second. -/
def generateChunk (rng : Rng) (startX distance : ℚ) (stash : Int) (lpx lpy : ℚ) : ChunkOut :=
  let tiles := tilePositions startX
  let gl := gapLoop rng distance stash tiles tiles.length 0 lpx lpy
  let cl := colLoop rng distance stash tiles gl.gapPositions tiles.length 0
    gl.lastPlatformX gl.lastPlatformY
  { gaps := gl.pairs.map Prod.fst,
    platforms := gl.pairs.map Prod.snd ++ cl.platforms,
    bushes := cl.bushes,
    grounds := cl.grounds,
    yarns := gl.yarns ++ cl.yarns,
    spawns := cl.spawns,
    lastPlatformX := cl.lastPlatformX, lastPlatformY := cl.lastPlatformY }

/-- `life_milestones` as initialized by `Game.start_game`. -/
def lifeMilestones : List ℚ := [1000, 2000, 4000, 8000, 16000, 32000]

/-- The orchestrator state that `_check_life_milestones` reads and writes. -/
structure GameM where
  player : Squirrel
  distance : ℚ
  nextLifeMilestoneIdx : Nat
deriving DecidableEq, Repr

/-- `Game._check_life_milestones`: when the index cursor is in range and the
distance has reached the milestone it points at, award a life through
`add_life` (a no-op at max lives) and advance the cursor by one. -/
def checkLifeMilestones (gm : GameM) : GameM :=
  if h : gm.nextLifeMilestoneIdx < lifeMilestones.length then
    if lifeMilestones.get ⟨gm.nextLifeMilestoneIdx, h⟩ ≤ gm.distance then
      { gm with player := (addLife gm.player).2,
                nextLifeMilestoneIdx := gm.nextLifeMilestoneIdx + 1 }
    else gm
  else gm


/-! Concrete states and oracles used as inputs of specific theorems below. -/

/-- A player inside the hit stun window. -/
def hitStunnedSquirrel : Squirrel :=
  { mkSquirrel 100 474 with state := PState.hit, hitTimer := 1, lives := 2 }

/-- A player in mid-air. -/
def airborneSquirrel : Squirrel :=
  { mkSquirrel 100 474 with isGrounded := false, state := PState.jumping, y := 400 }

/-- A player carrying 14 yarn, about to be hit. -/
def squirrelWithYarn14 : Squirrel := { mkSquirrel 100 474 with yarnCount := 14 }

/-- Scatter trajectory number 5 of 7: angle `(1/2)·π` (straight down in
screen coordinates), speed `200 + (5 % 3)·50 = 300`, origin the player
center `(100+55, 474+55)`. -/
def downTraj : Traj := { x := 155, y := 529, angCoeff := 1/2, speed := 300 }

/-- The hit / stun-expiry sequence that drives `lives` below zero: four
effective hits from 3 lives, each stun expired by a 2-second tick. -/
def livesBreakOps : List Op :=
  [Op.hitOp, Op.updOp 2, Op.hitOp, Op.updOp 2, Op.hitOp, Op.updOp 2, Op.hitOp]

/-- A freshly hit player at position `px` with `l` lives left: the state
`hit_obstacle` leaves behind. -/
def stunnedAt (px : ℚ) (l : Int) : Squirrel :=
  { x := px, y := 474, velocityY := -200, speedMultiplier := 1, isGrounded := false,
    groundY := 474, fallingInGap := false, state := PState.hit, yarnCount := 0,
    hitTimer := 1, lives := l, maxLives := 3 }

/-- A player whose stun has expired through a 2-second `update` tick. -/
def recoveredAt (px : ℚ) (l : Int) : Squirrel :=
  { x := px, y := 474, velocityY := 0, speedMultiplier := 1, isGrounded := true,
    groundY := 474, fallingInGap := false, state := PState.running, yarnCount := 0,
    hitTimer := -1, lives := l, maxLives := 3 }

/-- A generator holding the two-tile gap `[500, 628]` of the spec's
Scenario A. -/
def genWithOneGap : LevelGeneratorS :=
  { gaps := [{ startX := 500, width := 128, groundY := 584 }],
    lastPlatformX := 490, lastPlatformY := 514, yarnResetToBasic := false }

/-- A fresh generator state, as built by `LevelGenerator.__init__`. -/
def genFreshState : LevelGeneratorS :=
  { gaps := [], lastPlatformX := -1000, lastPlatformY := 584, yarnResetToBasic := false }

/-- An oracle on which every chance roll fails. -/
def rngNone : Rng :=
  { gapRoll := fun _ => false, gapSize := fun _ => 0, rescueRare := fun _ => false,
    rescueChoice := fun _ => 0, bushRoll := fun _ => false, bushOff := fun _ => 0,
    platRoll := fun _ => false, platHeightPick := fun _ => 0, platWidthPick := fun _ => 0,
    platYarnRoll := fun _ => false, platRare := fun _ => false, platChoice := fun _ => 0,
    airRoll := fun _ => false, airOff := fun _ => 0, airHeightPick := fun _ => 0,
    airRare := fun _ => false, airChoice := fun _ => 0 }

/-- An oracle on which every bush roll and every platform roll succeeds. -/
def rngBushAndPlatform : Rng :=
  { rngNone with bushRoll := fun _ => true, platRoll := fun _ => true }

/-- An oracle on which every gap roll succeeds and `randint(2, 3)` yields 2. -/
def rngAlwaysGap : Rng := { rngNone with gapRoll := fun _ => true }

/-- How many of the three per-column spawn kinds happened. -/
def spawnKindCount (c : ColSpawn) : Nat :=
  (if c.hasBush = true then 1 else 0) + (if c.hasPlatform = true then 1 else 0) +
    (if c.hasAirYarn = true then 1 else 0)

/-- The orchestrator state at the moment distance first reaches 1000. -/
def gmAtFirstMilestone : GameM :=
  { player := mkSquirrel 100 474, distance := 1000, nextLifeMilestoneIdx := 0 }

/-! Helper lemmas about single player operations and the generation loops,
shared by several claims. -/

theorem hitObstacle_lives (s : Squirrel) :
    (hitObstacle s).2.lives = if s.state = PState.hit then s.lives else s.lives - 1 := by
  unfold hitObstacle
  split <;> rfl

theorem addLife_lives (s : Squirrel) :
    (addLife s).2.lives = if s.lives < s.maxLives then s.lives + 1 else s.lives := by
  unfold addLife
  split <;> rfl

theorem updateSquirrel_lives (s : Squirrel) (dt : ℚ) :
    (updateSquirrel s dt).lives = s.lives := by
  simp only [updateSquirrel]
  split <;> split <;> rfl

theorem stepOp_maxLives (s : Squirrel) (op : Op) : (stepOp s op).maxLives = s.maxLives := by
  cases op with
  | hitOp =>
    show (hitObstacle s).2.maxLives = s.maxLives
    unfold hitObstacle
    split <;> rfl
  | addLifeOp =>
    show (addLife s).2.maxLives = s.maxLives
    unfold addLife
    split <;> rfl
  | updOp dt =>
    show (updateSquirrel s dt).maxLives = s.maxLives
    simp only [updateSquirrel]
    split <;> split <;> rfl

theorem stun_expires_after_tick (px : ℚ) (l : Int) :
    stepOp (stunnedAt px l) (Op.updOp 2) = recoveredAt (px + 400) l := by
  norm_num +decide [stepOp, stunnedAt, recoveredAt, updateSquirrel, speedIncreaseRate,
    baseSpeed, hitSpeedReduction, gravityAccel, gapGravityAccel]

theorem hit_recovered_player (px : ℚ) (l : Int) :
    stepOp (recoveredAt px l) Op.hitOp = stunnedAt px (l - 1) := by
  norm_num +decide [stepOp, stunnedAt, recoveredAt, hitObstacle, hitDuration, scatterTrajs]

/-- When the distance gate `distance > 100` is closed the gap scan creates
nothing and leaves the platform tracking untouched. -/
theorem gapLoop_no_gaps_below_distance (rng : Rng) (distance : ℚ) (stash : Int)
    (tiles : List ℚ) (hd : ¬ 100 < distance) :
    ∀ fuel i lpx lpy, gapLoop rng distance stash tiles fuel i lpx lpy =
      { pairs := [], gapPositions := [], yarns := [],
        lastPlatformX := lpx, lastPlatformY := lpy } := by
  intro fuel
  induction fuel with
  | zero => intro i lpx lpy; rfl
  | succ fuel ih =>
    intro i lpx lpy
    rw [gapLoop]
    split
    · rw [if_neg (by tauto), ih]
    · rfl

/-- Every (gap, platform) pair the gap scan emits has the platform 10 to the
left of the gap, 40 wider than it, at the low height 514. -/
theorem gapLoop_pairs_shape (rng : Rng) (distance : ℚ) (stash : Int) (tiles : List ℚ) :
    ∀ fuel i lpx lpy gp,
      gp ∈ (gapLoop rng distance stash tiles fuel i lpx lpy).pairs →
      gp.2.x = gp.1.startX - 10 ∧ gp.2.y = 514 ∧ gp.2.width = gp.1.width + 40 := by
  intro fuel
  induction fuel with
  | zero =>
    intro i lpx lpy gp hgp
    simp [gapLoop] at hgp
  | succ fuel ih =>
    intro i lpx lpy gp hgp
    simp only [gapLoop] at hgp
    repeat' split at hgp
    all_goals try dsimp only at hgp
    all_goals try simp only [List.mem_cons] at hgp
    all_goals first
      | exact ih _ _ _ gp hgp
      | (rcases hgp with h | h
         · subst h
           exact ⟨rfl, rfl, rfl⟩
         · exact ih _ _ _ gp h)
      | simp at hgp

/-- In the tile-placement loop a column that spawns a platform never also
spawns an airborne pickup (the pickup roll sits in the `else` arm of the
platform branch). -/
theorem colLoop_platform_excludes_air (rng : Rng) (distance : ℚ) (stash : Int)
    (tiles : List ℚ) (gapPos : List ℚ) :
    ∀ fuel idx lpx lpy c,
      c ∈ (colLoop rng distance stash tiles gapPos fuel idx lpx lpy).spawns →
      c.hasPlatform = true → c.hasAirYarn = false := by
  intro fuel
  induction fuel with
  | zero =>
    intro idx lpx lpy c hc
    simp [colLoop] at hc
  | succ fuel ih =>
    intro idx lpx lpy c hc hp
    simp only [colLoop] at hc
    repeat' split at hc
    all_goals try dsimp only at hc
    all_goals try simp only [List.mem_cons] at hc
    all_goals first
      | exact ih _ _ _ c hc hp
      | (rcases hc with h | h
         · subst h
           first
           | rfl
           | simp at hp
         · exact ih _ _ _ c h hp)
      | simp at hc

/-! The claims. -/

/-- C1: for every chunk the generator produces — any random draws, any
difficulty/distance, any stash, any incoming platform tracking — every `Gap`
it creates is covered by a `Platform` of the same step: the platform starts
at or left of the gap's `startX`, ends at or right of `startX + width`, is at
least `width + 40` wide (margin 40), and sits at the low height 514. -/
theorem every_gap_has_rescue_platform (rng : Rng) (startX distance : ℚ) (stash : Int)
    (lpx lpy : ℚ) (g : GapR)
    (hg : g ∈ (generateChunk rng startX distance stash lpx lpy).gaps) :
    ∃ p ∈ (generateChunk rng startX distance stash lpx lpy).platforms,
      p.x ≤ g.startX ∧ g.startX + g.width ≤ p.x + p.width ∧
      g.width + 40 ≤ p.width ∧ p.y = 514 := by
  have hg2 : g ∈ ((gapLoop rng distance stash (tilePositions startX)
      (tilePositions startX).length 0 lpx lpy).pairs.map Prod.fst) := hg
  obtain ⟨gp, hgp, hfst⟩ := List.mem_map.mp hg2
  obtain ⟨hpx, hpy, hpw⟩ :=
    gapLoop_pairs_shape rng distance stash (tilePositions startX) _ _ _ _ gp hgp
  have hp : gp.2 ∈ (generateChunk rng startX distance stash lpx lpy).platforms :=
    List.mem_append_left _ (List.mem_map_of_mem Prod.snd hgp)
  subst hfst
  refine ⟨gp.2, hp, ?_, ?_, ?_, hpy⟩
  · rw [hpx]
    linarith
  · rw [hpx, hpw]
    linarith
  · rw [hpw]

theorem every_gap_has_rescue_platform_witness :
    ({ startX := 1200, width := 128, groundY := 584 } : GapR) ∈
      (generateChunk rngAlwaysGap 1200 150 0 (-1000) 584).gaps ∧
    ∃ p ∈ (generateChunk rngAlwaysGap 1200 150 0 (-1000) 584).platforms,
      p.x ≤ ({ startX := 1200, width := 128, groundY := 584 } : GapR).startX ∧
      ({ startX := 1200, width := 128, groundY := 584 } : GapR).startX +
        ({ startX := 1200, width := 128, groundY := 584 } : GapR).width ≤ p.x + p.width ∧
      ({ startX := 1200, width := 128, groundY := 584 } : GapR).width + 40 ≤ p.width ∧
      p.y = 514 := by
  have hmem : ({ startX := 1200, width := 128, groundY := 584 } : GapR) ∈
      (generateChunk rngAlwaysGap 1200 150 0 (-1000) 584).gaps := by
    simp only [generateChunk]
    rw [show (tilePositions 1200).length = 6 + 1 by norm_num [tilePositions]]
    rw [gapLoop]
    norm_num +decide [tilePositions, List.range_succ, rngAlwaysGap, rngNone]
  exact ⟨hmem, every_gap_has_rescue_platform rngAlwaysGap 1200 150 0 (-1000) 584 _ hmem⟩

/-- C2 (code bug): `hit_obstacle` on a player with stash 14 does lose
`14 / 2 = 7` yarn leaving 7 and does emit `min(7, 10) = 7` trajectories, but
trajectory number 5 has angle exactly `π/2` — in pygame's y-down screen
coordinates that is straight DOWN — and its velocity after the −150 upward
bias is `(0, +150)`, squarely inside the open 45-degree cone around straight
down. This contradicts the claim (and the code's own comment, which says the
angles avoid straight down): the comment reasons in y-up math convention
while the engine is y-down. -/
theorem scatter_trajectory_points_straight_down :
    (hitObstacle squirrelWithYarn14).1.1 = 7 ∧
    (hitObstacle squirrelWithYarn14).2.yarnCount = 7 ∧
    (hitObstacle squirrelWithYarn14).1.2.1.length = 7 ∧
    (hitObstacle squirrelWithYarn14).1.2.1.get? 5 = some downTraj ∧
    trajPointsDown downTraj := by
  refine ⟨?_, ?_, ?_, ?_, ?_⟩
  · norm_num +decide [hitObstacle, squirrelWithYarn14, mkSquirrel]
  · norm_num +decide [hitObstacle, squirrelWithYarn14, mkSquirrel]
  · norm_num +decide [hitObstacle, squirrelWithYarn14, mkSquirrel, scatterTrajs]
  · norm_num +decide [hitObstacle, squirrelWithYarn14, mkSquirrel, scatterTrajs,
      List.range_succ, downTraj]
  · unfold trajPointsDown downTraj
    dsimp only
    have h1 : (((1 : ℚ)/2 : ℚ) : ℝ) * Real.pi = Real.pi / 2 := by
      push_cast
      ring
    rw [h1, Real.cos_pi_div_two, Real.sin_pi_div_two]
    norm_num

/-- C3 counterexample: the player class itself never clamps `lives` at zero —
a fourth effective hit (each stun having expired through `update`) drives
`lives` to −1, refuting `0 ≤ lives` over arbitrary hit/life sequences. -/
theorem lives_can_go_negative :
    (runOps (mkSquirrel 100 474) livesBreakOps).lives = -1 := by
  have h0 : stepOp (mkSquirrel 100 474) Op.hitOp = stunnedAt 100 2 := by
    norm_num +decide [stepOp, mkSquirrel, stunnedAt, hitObstacle, hitDuration, scatterTrajs]
  simp only [livesBreakOps, runOps]
  rw [h0, stun_expires_after_tick, hit_recovered_player, stun_expires_after_tick,
    hit_recovered_player, stun_expires_after_tick, hit_recovered_player]
  norm_num [stunnedAt]

/-- C3 amended: `lives ≤ maxLives` always holds, and `0 ≤ lives` holds as
long as no hazard hit lands in a vulnerable state with `lives` already at
0 — exactly the sequences the orchestrator can produce, since it ends the
run as soon as `hit_obstacle` reports death. -/
theorem lives_bounded_under_guarded_calls (ops : List Op) (s : Squirrel)
    (hg : guardedOps s ops) (h0 : 0 ≤ s.lives) (h1 : s.lives ≤ s.maxLives) :
    0 ≤ (runOps s ops).lives ∧ (runOps s ops).lives ≤ (runOps s ops).maxLives := by
  induction ops generalizing s with
  | nil => exact ⟨h0, h1⟩
  | cons op rest ih =>
    obtain ⟨hguard, hrest⟩ := hg
    have hstep0 : 0 ≤ (stepOp s op).lives := by
      cases op with
      | hitOp =>
        have hg2 := hguard rfl
        show 0 ≤ (hitObstacle s).2.lives
        rw [hitObstacle_lives]
        rcases hg2 with h | h
        · rw [if_pos h]; exact h0
        · split
          · exact h0
          · omega
      | addLifeOp =>
        show 0 ≤ (addLife s).2.lives
        rw [addLife_lives]
        split <;> omega
      | updOp dt =>
        show 0 ≤ (updateSquirrel s dt).lives
        rw [updateSquirrel_lives]
        exact h0
    have hstep1 : (stepOp s op).lives ≤ (stepOp s op).maxLives := by
      rw [stepOp_maxLives]
      cases op with
      | hitOp =>
        show (hitObstacle s).2.lives ≤ s.maxLives
        rw [hitObstacle_lives]
        split <;> omega
      | addLifeOp =>
        show (addLife s).2.lives ≤ s.maxLives
        rw [addLife_lives]
        split <;> omega
      | updOp dt =>
        show (updateSquirrel s dt).lives ≤ s.maxLives
        rw [updateSquirrel_lives]
        exact h1
    exact ih (stepOp s op) hrest hstep0 hstep1

theorem lives_bounded_under_guarded_calls_witness :
    guardedOps (mkSquirrel 100 474) [Op.hitOp, Op.addLifeOp] ∧
    0 ≤ (runOps (mkSquirrel 100 474) [Op.hitOp, Op.addLifeOp]).lives ∧
    (runOps (mkSquirrel 100 474) [Op.hitOp, Op.addLifeOp]).lives ≤
      (runOps (mkSquirrel 100 474) [Op.hitOp, Op.addLifeOp]).maxLives := by
  have hguard : guardedOps (mkSquirrel 100 474) [Op.hitOp, Op.addLifeOp] :=
    ⟨fun _ => Or.inr (by decide), fun h => absurd h (by decide), trivial⟩
  have h := lives_bounded_under_guarded_calls [Op.hitOp, Op.addLifeOp]
    (mkSquirrel 100 474) hguard (by decide) (by decide)
  exact ⟨hguard, h.1, h.2⟩

/-- C4 counterexample: hazard and platform spawns are NOT mutually exclusive
per column. With the bush roll and the platform roll both succeeding at
distance 90 (both gates open), the very first column of the chunk gets a
bush AND a platform: two of the three spawn kinds in one column, refuting
"at most one of the three". -/
theorem hazard_and_platform_share_column :
    (generateChunk rngBushAndPlatform 1200 90 0 (-1000) 584).spawns.head? =
      some { tileX := 1200, hasBush := true, hasPlatform := true, hasAirYarn := false } ∧
    spawnKindCount { tileX := 1200, hasBush := true, hasPlatform := true, hasAirYarn := false }
      = 2 := by
  refine ⟨?_, by decide⟩
  have hgl := gapLoop_no_gaps_below_distance rngBushAndPlatform 90 0 (tilePositions 1200)
    (by norm_num) (tilePositions 1200).length 0 (-1000) 584
  simp only [generateChunk, hgl]
  rw [show (tilePositions 1200).length = 6 + 1 by norm_num [tilePositions]]
  rw [colLoop]
  norm_num +decide [tilePositions, List.range_succ, memQ, platformMinSpacing,
    platformHeights, platformWidthChoices, rngBushAndPlatform, rngNone]

/-- C4 amended: of the three per-column spawns only platform and airborne
pickup are mutually exclusive (the pickup roll is the `else` arm of the
platform branch, so the platform is tried first); the hazard roll is
independent and may co-occur with either. -/
theorem platform_excludes_air_pickup (rng : Rng) (startX distance : ℚ) (stash : Int)
    (lpx lpy : ℚ) (c : ColSpawn)
    (hc : c ∈ (generateChunk rng startX distance stash lpx lpy).spawns)
    (hp : c.hasPlatform = true) : c.hasAirYarn = false := by
  have hc2 : c ∈ (colLoop rng distance stash (tilePositions startX)
      (gapLoop rng distance stash (tilePositions startX)
        (tilePositions startX).length 0 lpx lpy).gapPositions
      (tilePositions startX).length 0
      (gapLoop rng distance stash (tilePositions startX)
        (tilePositions startX).length 0 lpx lpy).lastPlatformX
      (gapLoop rng distance stash (tilePositions startX)
        (tilePositions startX).length 0 lpx lpy).lastPlatformY).spawns := hc
  exact colLoop_platform_excludes_air rng distance stash _ _ _ _ _ _ c hc2 hp

theorem platform_excludes_air_pickup_witness :
    ({ tileX := 1200, hasBush := true, hasPlatform := true, hasAirYarn := false } : ColSpawn) ∈
      (generateChunk rngBushAndPlatform 1200 90 0 (-1000) 584).spawns ∧
    ColSpawn.hasAirYarn
      { tileX := 1200, hasBush := true, hasPlatform := true, hasAirYarn := false } = false := by
  have hmem :
      ({ tileX := 1200, hasBush := true, hasPlatform := true, hasAirYarn := false } : ColSpawn) ∈
        (generateChunk rngBushAndPlatform 1200 90 0 (-1000) 584).spawns := by
    have hgl := gapLoop_no_gaps_below_distance rngBushAndPlatform 90 0 (tilePositions 1200)
      (by norm_num) (tilePositions 1200).length 0 (-1000) 584
    simp only [generateChunk, hgl]
    rw [show (tilePositions 1200).length = 6 + 1 by norm_num [tilePositions]]
    rw [colLoop]
    norm_num +decide [tilePositions, List.range_succ, memQ, platformMinSpacing,
      platformHeights, platformWidthChoices, rngBushAndPlatform, rngNone]
  exact ⟨hmem,
    platform_excludes_air_pickup rngBushAndPlatform 1200 90 0 (-1000) 584 _ hmem rfl⟩

/-- C5 (code bug): the tier reset after a hazard hit is not enforced by the
spawn path. `reset_yarn_tiers` only sets the `yarn_reset_to_basic` flag,
which no spawn code reads: with the flag set and stash 10 (the mid-tier
threshold still met), `spawn_yarn` happily yields the mid-tier color "cyan",
contradicting the claim that only basic colors spawn until thresholds are
re-met. -/
theorem tier_reset_flag_never_consulted :
    (resetYarnTiers genFreshState).yarnResetToBasic = true ∧
    spawnYarn 0 0 10 false 3 = some { x := 0, y := 0, colorName := "cyan", points := 2 } ∧
    "cyan" ∉ basicColors := by
  exact ⟨rfl, by decide, by decide⟩

/-- C6 counterexample: with the player fixed at x = 0 and speed 0 the camera
target is −240, but the `max(0, ·)` clamp pins the camera at 0 on every
tick, so camera x never gets within ε = 1 of the target: convergence to the
target fails for negative targets (the claim's `dt` condition holds:
`lerpRate·dt = 1/2`). -/
theorem camera_never_reaches_negative_target :
    cameraTarget 0 0 = -240 ∧
    ¬ (∃ N : ℕ, ∀ n, N ≤ n →
        |(cameraIter mkCamera (1/10) 0 0 n).x - cameraTarget 0 0| < 1) := by
  have htar : cameraTarget 0 0 = -240 := by
    norm_num [cameraTarget, camBaseOffset, camMaxOffset]
  refine ⟨htar, ?_⟩
  have hzero : ∀ n, (cameraIter mkCamera (1/10) 0 0 n).x = 0 := by
    intro n
    induction n with
    | zero => rfl
    | succ n ih =>
      show (cameraUpdate _ _ _ _).x = 0
      simp only [cameraUpdate, ih, htar]
      norm_num [lerpSpeed, max_def]
  rintro ⟨N, hN⟩
  have hclose := hN N le_rfl
  rw [hzero N, htar] at hclose
  norm_num at hclose

/-- C6 amended: for a fixed player position and speed whose target
`playerX − offset(speedPct)` is nonnegative (so the `max(0, ·)` clamp never
fights the lerp), with `0 < lerpRate·dt < 1` the iterated update converges
to the target within any ε in finitely many ticks, and camera x never goes
negative. -/
theorem camera_converges_for_nonneg_target (c : Camera) (dt playerX speedPct : ℚ)
    (hk0 : 0 < lerpSpeed * dt) (hk1 : lerpSpeed * dt < 1)
    (hx : 0 ≤ c.x) (ht : 0 ≤ cameraTarget playerX speedPct) :
    (∀ ε : ℚ, 0 < ε → ∃ N : ℕ, ∀ n, N ≤ n →
        |(cameraIter c dt playerX speedPct n).x - cameraTarget playerX speedPct| < ε) ∧
    (∀ n, 0 ≤ (cameraIter c dt playerX speedPct n).x) := by
  have hpos : ∀ n, 0 ≤ (cameraIter c dt playerX speedPct n).x := by
    intro n
    induction n with
    | zero => exact hx
    | succ n ih =>
      show 0 ≤ (cameraUpdate _ dt playerX speedPct).x
      simp only [cameraUpdate]
      exact le_max_left 0 _
  have hstep : ∀ n, (cameraIter c dt playerX speedPct (n+1)).x
      = (cameraIter c dt playerX speedPct n).x
        + (cameraTarget playerX speedPct - (cameraIter c dt playerX speedPct n).x)
          * (lerpSpeed * dt) := by
    intro n
    show (cameraUpdate _ dt playerX speedPct).x = _
    simp only [cameraUpdate]
    rw [max_eq_right]
    · ring
    · nlinarith [hpos n, mul_nonneg ht hk0.le]
  have hdist : ∀ n,
      |(cameraIter c dt playerX speedPct (n+1)).x - cameraTarget playerX speedPct|
      = (1 - lerpSpeed * dt)
        * |(cameraIter c dt playerX speedPct n).x - cameraTarget playerX speedPct| := by
    intro n
    rw [hstep n]
    have heq : (cameraIter c dt playerX speedPct n).x
        + (cameraTarget playerX speedPct - (cameraIter c dt playerX speedPct n).x)
          * (lerpSpeed * dt)
        - cameraTarget playerX speedPct
        = (1 - lerpSpeed * dt)
          * ((cameraIter c dt playerX speedPct n).x - cameraTarget playerX speedPct) := by
      ring
    rw [heq, abs_mul, abs_of_nonneg (by linarith : (0:ℚ) ≤ 1 - lerpSpeed * dt)]
  have hgeom : ∀ n,
      |(cameraIter c dt playerX speedPct n).x - cameraTarget playerX speedPct|
      = (1 - lerpSpeed * dt) ^ n * |c.x - cameraTarget playerX speedPct| := by
    intro n
    induction n with
    | zero => simp [cameraIter]
    | succ n ih =>
      rw [hdist n, ih, pow_succ]
      ring
  refine ⟨?_, hpos⟩
  intro ε hε
  have hBpos : (0:ℚ) < |c.x - cameraTarget playerX speedPct| + 1 := by positivity
  obtain ⟨N, hN⟩ := exists_pow_lt_of_lt_one (div_pos hε hBpos)
    (show 1 - lerpSpeed * dt < 1 by linarith)
  refine ⟨N, fun n hn => ?_⟩
  rw [hgeom n]
  have h0k : (0:ℚ) ≤ 1 - lerpSpeed * dt := by linarith
  have h1 : (1 - lerpSpeed * dt) ^ n ≤ (1 - lerpSpeed * dt) ^ N :=
    pow_le_pow_of_le_one h0k (by linarith) hn
  calc (1 - lerpSpeed * dt) ^ n * |c.x - cameraTarget playerX speedPct|
      ≤ (1 - lerpSpeed * dt) ^ N * |c.x - cameraTarget playerX speedPct| :=
        mul_le_mul_of_nonneg_right h1 (abs_nonneg _)
    _ ≤ (1 - lerpSpeed * dt) ^ N * (|c.x - cameraTarget playerX speedPct| + 1) := by
        nlinarith [pow_nonneg h0k N]
    _ < (ε / (|c.x - cameraTarget playerX speedPct| + 1))
          * (|c.x - cameraTarget playerX speedPct| + 1) :=
        mul_lt_mul_of_pos_right hN hBpos
    _ = ε := by field_simp

theorem camera_converges_for_nonneg_target_witness :
    ((0:ℚ) < lerpSpeed * (1/10) ∧ lerpSpeed * (1/10) < 1 ∧
      (0:ℚ) ≤ mkCamera.x ∧ (0:ℚ) ≤ cameraTarget 300 0) ∧
    ((∀ ε : ℚ, 0 < ε → ∃ N : ℕ, ∀ n, N ≤ n →
        |(cameraIter mkCamera (1/10) 300 0 n).x - cameraTarget 300 0| < ε) ∧
     (∀ n, 0 ≤ (cameraIter mkCamera (1/10) 300 0 n).x)) := by
  refine ⟨⟨by norm_num [lerpSpeed], by norm_num [lerpSpeed], by norm_num [mkCamera],
    by norm_num [cameraTarget, camBaseOffset, camMaxOffset]⟩, ?_⟩
  exact camera_converges_for_nonneg_target mkCamera (1/10) 300 0
    (by norm_num [lerpSpeed]) (by norm_num [lerpSpeed]) (by norm_num [mkCamera])
    (by norm_num [cameraTarget, camBaseOffset, camMaxOffset])

/-- C7: when the milestone cursor is in range and distance has reached the
milestone it points at, `_check_life_milestones` adds exactly one life
(when below max; none otherwise), advances the cursor by one, leaves the
distance alone, and — the award consumed — a second call at the same
distance is a no-op unless that distance already reaches the NEXT milestone
(and is always a no-op once the list is exhausted). -/
theorem life_milestone_consumed_once (gm : GameM)
    (h : gm.nextLifeMilestoneIdx < lifeMilestones.length)
    (hd : lifeMilestones.get ⟨gm.nextLifeMilestoneIdx, h⟩ ≤ gm.distance) :
    (checkLifeMilestones gm).nextLifeMilestoneIdx = gm.nextLifeMilestoneIdx + 1 ∧
    (checkLifeMilestones gm).player.lives =
      (if gm.player.lives < gm.player.maxLives then gm.player.lives + 1
       else gm.player.lives) ∧
    (checkLifeMilestones gm).distance = gm.distance ∧
    (∀ h2 : gm.nextLifeMilestoneIdx + 1 < lifeMilestones.length,
       gm.distance < lifeMilestones.get ⟨gm.nextLifeMilestoneIdx + 1, h2⟩ →
       checkLifeMilestones (checkLifeMilestones gm) = checkLifeMilestones gm) ∧
    (lifeMilestones.length ≤ gm.nextLifeMilestoneIdx + 1 →
       checkLifeMilestones (checkLifeMilestones gm) = checkLifeMilestones gm) := by
  have hstep : checkLifeMilestones gm =
      { gm with player := (addLife gm.player).2,
                nextLifeMilestoneIdx := gm.nextLifeMilestoneIdx + 1 } := by
    unfold checkLifeMilestones
    rw [dif_pos h, if_pos hd]
  refine ⟨by rw [hstep], ?_, by rw [hstep], ?_, ?_⟩
  · rw [hstep]
    show (addLife gm.player).2.lives = _
    rw [addLife_lives]
  · intro h2 hlt
    rw [hstep]
    unfold checkLifeMilestones
    dsimp only
    rw [dif_pos h2, if_neg (not_le.mpr hlt)]
  · intro hge
    rw [hstep]
    unfold checkLifeMilestones
    dsimp only
    rw [dif_neg (by omega)]

theorem life_milestone_consumed_once_witness :
    (checkLifeMilestones gmAtFirstMilestone).nextLifeMilestoneIdx = 1 ∧
    (checkLifeMilestones gmAtFirstMilestone).player.lives = 3 := by
  have h := life_milestone_consumed_once gmAtFirstMilestone (by decide) (by decide)
  refine ⟨h.1, ?_⟩
  rw [h.2.1]
  decide

/-- C8: invalid transition attempts are silent no-ops. `hit_obstacle` called
in the Hit state returns `(0, [], False)` and leaves every player field
unchanged; `jump` called while airborne or while Hit leaves every player
field unchanged. -/
theorem invalid_transitions_are_noops (s : Squirrel) :
    (s.state = PState.hit → hitObstacle s = ((0, [], false), s)) ∧
    (¬ (s.isGrounded = true ∧ s.state ≠ PState.hit) → jump s = s) := by
  constructor
  · intro h
    simp [hitObstacle, h]
  · intro h
    simp only [jump, if_neg h]

theorem invalid_transitions_are_noops_witness :
    hitObstacle hitStunnedSquirrel = ((0, [], false), hitStunnedSquirrel) ∧
    jump airborneSquirrel = airborneSquirrel :=
  ⟨(invalid_transitions_are_noops hitStunnedSquirrel).1 rfl,
   (invalid_transitions_are_noops airborneSquirrel).2 (by decide)⟩

/-- C9: `spawn_yarn` never returns `None` despite its `Optional` signature:
`get_available_colors` never returns an empty list (the basic tier is always
unlocked, and the fallback re-supplies the basic colors otherwise), so
`random.choice` always has a color to pick. -/
theorem spawn_yarn_always_returns_pickup (x y : ℚ) (stash : Int)
    (rareRoll : Bool) (choiceIx : Nat) :
    getAvailableColors stash ≠ [] ∧ (spawnYarn x y stash rareRoll choiceIx).isSome = true := by
  have hne : getAvailableColors stash ≠ [] := by
    unfold getAvailableColors
    split
    · simp [basicColors]
    · assumption
  refine ⟨hne, ?_⟩
  unfold spawnYarn
  split
  · rfl
  · have hlt : choiceIx % (getAvailableColors stash).length < (getAvailableColors stash).length :=
      Nat.mod_lt _ (List.length_pos.mpr hne)
    rw [List.get?_eq_get hlt]
    rfl

/-- C10: gap membership is a closed interval on both ends
(`start_x <= x <= end_x` with `end_x = start_x + width`), so `get_ground_at`
reports "in a gap" (returns `None`) even at `x = startX + width`, the point
where the first ground tile after the gap begins. -/
theorem gap_interval_closed_both_ends (gen : LevelGeneratorS) (g : GapR) (x : ℚ)
    (hg : g ∈ gen.gaps) (h1 : g.startX ≤ x) (h2 : x ≤ g.startX + g.width) :
    gapContainsX g x = true ∧ getGroundAt gen x = none := by
  have hc : gapContainsX g x = true := by
    unfold gapContainsX gapEndX
    simp [h1, h2]
  have hany : gen.gaps.any (fun gp => gapContainsX gp x) = true :=
    List.any_eq_true.mpr ⟨g, hg, hc⟩
  refine ⟨hc, ?_⟩
  simp [getGroundAt, hany]

theorem gap_interval_closed_both_ends_witness :
    gapContainsX { startX := 500, width := 128, groundY := 584 } 628 = true ∧
    getGroundAt genWithOneGap 628 = none :=
  gap_interval_closed_both_ends genWithOneGap
    { startX := 500, width := 128, groundY := 584 } 628
    (by decide) (by decide) (by norm_num)

end SquirrelStash
